import Mathlib

/-!
Verification of the threshold-resolution core of `railway-alarms`
(`src/alarms/src/config.rs`).

The resolver reads a flat string-keyed lookup (abstracting the process
environment), resolves three global tunables, then visits the closed set of
alarm kinds, producing a mapping from alarm kind to a resolved `AlarmConfig`
or failing on the first parse error.

The `Alarm` enumeration itself lives outside the provided sources; following
the specification it is modelled as a closed set of identifiers, each with a
stable string name and a `Numeric`/`Signal` category (in the Rust source the
single `Signal` kind is `Alarm::HealthCheckFailed`, tested by identity; the
category flag is the specification's abstraction of that test).  The resolver
is parametrised by the list of kinds, visited in order, and the result mapping
is represented as an association list in insertion order (the Rust `HashMap`
keyed by the closed enumeration holds at most one entry per kind).
-/

namespace Alarms

/-- Strip a single leading sign character (used by the float grammar). -/
def stripSign (cs : List Char) : List Char :=
  match cs with
  | '+' :: rest => rest
  | '-' :: rest => rest
  | _ => cs

/-- Model of Rust `str::parse::<u16>()`: an optional leading `+` followed by
one or more ASCII digits, value at most `65535`; anything else (including a
leading `-`, spaces, or overflow) fails.  Returns the parsed value as a `Nat`
below `2^16`. -/
def parseU16 (s : String) : Option Nat :=
  let cs := match s.data with
    | '+' :: rest => rest
    | cs => cs
  if cs.isEmpty then none
  else if cs.all Char.isDigit then
    let n := cs.foldl (fun acc c => acc * 10 + (c.toNat - 48)) 0
    if n < 65536 then some n else none
  else none

/-- Split a character list at the first character satisfying `p`; the second
component is `none` when no such character occurs. -/
def splitAtChar (p : Char → Bool) : List Char → List Char × Option (List Char)
  | [] => ([], none)
  | c :: rest =>
    if p c then ([], some rest)
    else
      let r := splitAtChar p rest
      (c :: r.1, r.2)

/-- Mantissa of Rust's float grammar: `Digit+ | Digit+ '.' Digit* | Digit* '.' Digit+`. -/
def isMantissa (cs : List Char) : Bool :=
  let r := splitAtChar (fun c => c = '.') cs
  match r.2 with
  | none => !r.1.isEmpty && r.1.all Char.isDigit
  | some frac => (!r.1.isEmpty || !frac.isEmpty) && r.1.all Char.isDigit && frac.all Char.isDigit

/-- Exponent of Rust's float grammar: optional sign then one or more digits. -/
def isExponent (cs : List Char) : Bool :=
  let cs := stripSign cs
  !cs.isEmpty && cs.all Char.isDigit

/-- Model of the accepting set of Rust `str::parse::<f64>()` (the documented
grammar of `f64::from_str`): optional sign, then case-insensitive
`inf`/`infinity`/`nan` or a decimal number with optional fraction and
exponent.  Parsing never fails on range, only on syntax, so a Boolean
acceptance test fully captures validation. -/
def isF64 (s : String) : Bool :=
  let cs := stripSign s.data
  let lower := cs.map Char.toLower
  if lower = ['i', 'n', 'f'] then true
  else if lower = ['i', 'n', 'f', 'i', 'n', 'i', 't', 'y'] then true
  else if lower = ['n', 'a', 'n'] then true
  else
    let r := splitAtChar (fun c => c = 'e' || c = 'E') cs
    match r.2 with
    | none => isMantissa r.1
    | some ex => isMantissa r.1 && isExponent ex

/-- Category of an alarm kind: `Numeric` values must parse as floats,
`Signal` values are accepted as opaque strings. -/
inductive AlarmCategory where
  | Numeric
  | Signal
deriving DecidableEq

/-- Modelled from the spec: the `Alarm` enumeration is defined outside the
provided sources; it is a closed set of identifiers with a stable textual
name (used to derive environment keys) and a category flag. -/
structure Alarm where
  name : String
  category : AlarmCategory
deriving DecidableEq

/-- `AlarmConfig` from `config.rs`: the resolved record for one alarm kind.
`u16` fields are modelled as `Nat` (the parser bounds them below `2^16`). -/
structure AlarmConfig where
  value : String
  period_minutes : Nat
  data_points : Nat
  data_points_to_alarm : Nat
deriving DecidableEq

/-- The error cases of `crate::Error` reached by the resolver, carrying the
offending key name (the Rust parse-error payload is omitted: claims only
concern the error kind and key attribution). -/
inductive Error where
  | MissingEnvVar (name : String)
  | ParseIntWithMetadata (key : String)
  | ParseFloatWithMetadata (key : String)
deriving DecidableEq

def DEFAULT_PERIOD_MINUTES : Nat := 1

def MIN_PERIOD_MINUTES : Nat := 1

def DEFAULT_DATA_POINTS : Nat := 5

def MIN_DATA_POINTS : Nat := 1

def DEFAULT_DATA_POINTS_TO_ALARM : Nat := 3

def MIN_DATA_POINTS_TO_ALARM : Nat := 1

/-- The Rust idiom `env::var(key).ok().map(|v| v.parse::<u16>()).transpose()
.map_err(|e| Error::ParseIntWithMetadata(e, key))?.unwrap_or(dflt)`:
absent keys yield the default, present keys must parse. -/
def readU16 (lookup : String → Option String) (key : String) (dflt : Nat) :
    Except Error Nat :=
  match lookup key with
  | none => Except.ok dflt
  | some s =>
    match parseU16 s with
    | some n => Except.ok n
    | none => Except.error (Error.ParseIntWithMetadata key)

/-- The clamping step of `optional` (`if x < MIN { x = MIN; warn!(...) }`):
replace a resolved tunable below the minimum by exactly the minimum.  The
warning is an observability side effect with no influence on the result. -/
def clampMin (lo n : Nat) : Nat :=
  if n < lo then lo else n

/-- The body of the per-alarm loop of `optional` (`config.rs` lines 79-135):
skip the kind when its base key is absent; validate Numeric base values as
floats; resolve and clamp the three tunables, falling back to the supplied
global defaults. -/
def resolveAlarm (lookup : String → Option String)
    (default_period_minutes default_data_points default_data_points_to_alarm : Nat)
    (alarm : Alarm) : Except Error (Option AlarmConfig) :=
  match lookup alarm.name with
  | none => Except.ok none
  | some value =>
    if alarm.category = AlarmCategory.Numeric ∧ isF64 value = false then
      Except.error (Error.ParseFloatWithMetadata alarm.name)
    else
      match readU16 lookup (alarm.name ++ "_PERIOD_MINUTES") default_period_minutes with
      | Except.error e => Except.error e
      | Except.ok pm =>
        match readU16 lookup (alarm.name ++ "_DATA_POINTS") default_data_points with
        | Except.error e => Except.error e
        | Except.ok dp =>
          match readU16 lookup (alarm.name ++ "_DATA_POINTS_TO_ALARM")
              default_data_points_to_alarm with
          | Except.error e => Except.error e
          | Except.ok dpta =>
            Except.ok (some { value := value,
                              period_minutes := clampMin MIN_PERIOD_MINUTES pm,
                              data_points := clampMin MIN_DATA_POINTS dp,
                              data_points_to_alarm := clampMin MIN_DATA_POINTS_TO_ALARM dpta })

/-- The `for alarm in Alarm::iter()` loop of `optional`: visit the kinds in
order, inserting one entry per kind whose base key is present, aborting on
the first error. -/
def resolveKinds (lookup : String → Option String) (d1 d2 d3 : Nat) :
    List Alarm → Except Error (List (Alarm × AlarmConfig))
  | [] => Except.ok []
  | k :: rest =>
    match resolveAlarm lookup d1 d2 d3 k with
    | Except.error e => Except.error e
    | Except.ok none => resolveKinds lookup d1 d2 d3 rest
    | Except.ok (some cfg) =>
      match resolveKinds lookup d1 d2 d3 rest with
      | Except.error e => Except.error e
      | Except.ok m => Except.ok ((k, cfg) :: m)

/-- `config::optional` (`config.rs` lines 57-139): resolve the three global
tunables, then every alarm kind, returning the accumulated mapping or the
first error. -/
def optional (lookup : String → Option String) (kinds : List Alarm) :
    Except Error (List (Alarm × AlarmConfig)) :=
  match readU16 lookup "PERIOD_MINUTES" DEFAULT_PERIOD_MINUTES with
  | Except.error e => Except.error e
  | Except.ok default_period_minutes =>
    match readU16 lookup "DATA_POINTS" DEFAULT_DATA_POINTS with
    | Except.error e => Except.error e
    | Except.ok default_data_points =>
      match readU16 lookup "DATA_POINTS_TO_ALARM" DEFAULT_DATA_POINTS_TO_ALARM with
      | Except.error e => Except.error e
      | Except.ok default_data_points_to_alarm =>
        resolveKinds lookup default_period_minutes default_data_points
          default_data_points_to_alarm kinds

/-- Sample alarm kind named in the repository's tests (Numeric category). -/
def CpuLowerLimitVcpus : Alarm :=
  { name := "CPU_LOWER_LIMIT_VCPUS", category := AlarmCategory.Numeric }

/-- Sample alarm kind named in the repository's tests (Numeric category). -/
def CpuUpperLimitVcpus : Alarm :=
  { name := "CPU_UPPER_LIMIT_VCPUS", category := AlarmCategory.Numeric }

/-- The single Signal-category kind (`Alarm::HealthCheckFailed`). -/
def HealthCheckFailed : Alarm :=
  { name := "HEALTH_CHECK_FAILED", category := AlarmCategory.Signal }

/-- First-some combinator: the first error among `a` then `b`. -/
def firstSome (a b : Option Error) : Option Error :=
  match a with
  | some e => some e
  | none => b

/-- The parse check a single `u16` key contributes: `none` when the key is
absent or parses, the `InvalidInteger`-style error naming the key otherwise. -/
def checkU16 (lookup : String → Option String) (key : String) : Option Error :=
  match lookup key with
  | none => none
  | some s =>
    match parseU16 s with
    | some _ => none
    | none => some (Error.ParseIntWithMetadata key)

/-- The first parse error one kind's checks encounter, in the spec's stated
order: the base value (float-validated for Numeric kinds) before the
kind-scoped period, data-points and data-points-to-alarm keys; a kind whose
base key is absent is skipped and checks nothing. -/
def kindFirstError (lookup : String → Option String) (k : Alarm) : Option Error :=
  match lookup k.name with
  | none => none
  | some v =>
    if k.category = AlarmCategory.Numeric ∧ isF64 v = false then
      some (Error.ParseFloatWithMetadata k.name)
    else
      firstSome (checkU16 lookup (k.name ++ "_PERIOD_MINUTES"))
        (firstSome (checkU16 lookup (k.name ++ "_DATA_POINTS"))
          (checkU16 lookup (k.name ++ "_DATA_POINTS_TO_ALARM")))

/-- The first parse error encountered across the kinds, visited in order. -/
def kindsFirstError (lookup : String → Option String) : List Alarm → Option Error
  | [] => none
  | k :: rest => firstSome (kindFirstError lookup k) (kindsFirstError lookup rest)

/-- The first parse error of a whole resolution in the spec's stated order:
the three global tunable keys (`PERIOD_MINUTES`, `DATA_POINTS`,
`DATA_POINTS_TO_ALARM`) first, then the kinds in enumeration order. -/
def specFirstError (lookup : String → Option String) (kinds : List Alarm) : Option Error :=
  firstSome (checkU16 lookup "PERIOD_MINUTES")
    (firstSome (checkU16 lookup "DATA_POINTS")
      (firstSome (checkU16 lookup "DATA_POINTS_TO_ALARM")
        (kindsFirstError lookup kinds)))

/-- The spec's layered-default description of one tunable: the kind-scoped
key if present (its parse), otherwise the global key if present (its parse),
otherwise the hard-coded default — the value before clamping. -/
def layeredValue (lookup : String → Option String) (scopedKey globalKey : String)
    (dflt : Nat) : Option Nat :=
  match lookup scopedKey with
  | some s => parseU16 s
  | none =>
    match lookup globalKey with
    | some s => parseU16 s
    | none => some dflt

/-- Concrete lookup with only the CPU lower-limit base key set to `v`. -/
def lookupBase (v : String) : String → Option String := fun key =>
  if key = "CPU_LOWER_LIMIT_VCPUS" then some v else none

/-- Concrete lookup exercising the three default layers at once: a scoped
period override, a global data-points default, nothing for the third. -/
def lookupLayered : String → Option String := fun key =>
  if key = "CPU_LOWER_LIMIT_VCPUS" then some "3"
  else if key = "CPU_LOWER_LIMIT_VCPUS_PERIOD_MINUTES" then some "7"
  else if key = "DATA_POINTS" then some "9" else none

/-- Concrete lookup with a sub-minimum scoped period override. -/
def lookupZeroPeriod : String → Option String := fun key =>
  if key = "CPU_LOWER_LIMIT_VCPUS" then some "3"
  else if key = "CPU_LOWER_LIMIT_VCPUS_PERIOD_MINUTES" then some "0" else none

/-- Concrete lookup with a malformed scoped tunable but no base key. -/
def lookupScopedBad : String → Option String := fun key =>
  if key = "CPU_LOWER_LIMIT_VCPUS_PERIOD_MINUTES" then some "a" else none

/-- Concrete lookup with a malformed global tunable. -/
def lookupGlobalBad : String → Option String := fun key =>
  if key = "PERIOD_MINUTES" then some "b" else none

/-- Concrete lookup with a well-formed base key and a malformed scoped
data-points key. -/
def lookupBothBad : String → Option String := fun key =>
  if key = "CPU_LOWER_LIMIT_VCPUS" then some "3"
  else if key = "CPU_LOWER_LIMIT_VCPUS_DATA_POINTS" then some "x" else none

theorem readU16_none {lookup : String → Option String} {key : String} {d : Nat}
    (h : lookup key = none) : readU16 lookup key d = Except.ok d := by
  simp [readU16, h]

theorem readU16_parse {lookup : String → Option String} {key s : String} {n d : Nat}
    (h : lookup key = some s) (hp : parseU16 s = some n) :
    readU16 lookup key d = Except.ok n := by
  simp [readU16, h, hp]

theorem readU16_fail {lookup : String → Option String} {key s : String} {d : Nat}
    (h : lookup key = some s) (hp : parseU16 s = none) :
    readU16 lookup key d = Except.error (Error.ParseIntWithMetadata key) := by
  simp [readU16, h, hp]

theorem readU16_ok_iff {lookup : String → Option String} {key : String} {d v : Nat} :
    readU16 lookup key d = Except.ok v ↔
      (lookup key = none ∧ v = d) ∨ ∃ s, lookup key = some s ∧ parseU16 s = some v := by
  unfold readU16
  cases h : lookup key with
  | none => simp [eq_comm]
  | some s =>
    cases hp : parseU16 s with
    | none => simp [hp]
    | some n => simp [hp, eq_comm]

theorem readU16_error_iff {lookup : String → Option String} {key : String} {d : Nat}
    {e : Error} :
    readU16 lookup key d = Except.error e ↔
      ∃ s, lookup key = some s ∧ parseU16 s = none ∧ e = Error.ParseIntWithMetadata key := by
  unfold readU16
  cases h : lookup key with
  | none => simp
  | some s =>
    cases hp : parseU16 s with
    | none => simp [hp, eq_comm]
    | some n => simp [hp]

theorem checkU16_some_iff {lookup : String → Option String} {key : String} {d : Nat}
    {e : Error} :
    checkU16 lookup key = some e ↔ readU16 lookup key d = Except.error e := by
  unfold checkU16 readU16
  cases h : lookup key with
  | none => simp
  | some s =>
    cases hp : parseU16 s with
    | none => simp [hp]
    | some n => simp [hp]

theorem checkU16_none_iff {lookup : String → Option String} {key : String} {d : Nat} :
    checkU16 lookup key = none ↔ ∃ v, readU16 lookup key d = Except.ok v := by
  unfold checkU16 readU16
  cases h : lookup key with
  | none => simp
  | some s =>
    cases hp : parseU16 s with
    | none => simp [hp]
    | some n => simp [hp]

theorem layeredValue_of_readU16 {lookup : String → Option String} {sc g : String}
    {dflt d p : Nat} (hg : readU16 lookup g dflt = Except.ok d)
    (hs : readU16 lookup sc d = Except.ok p) :
    layeredValue lookup sc g dflt = some p := by
  unfold layeredValue
  rcases readU16_ok_iff.mp hs with ⟨hnone, rfl⟩ | ⟨s, hsome, hparse⟩
  · rw [hnone]
    rcases readU16_ok_iff.mp hg with ⟨hgnone, rfl⟩ | ⟨t, hgsome, hgparse⟩
    · rw [hgnone]
    · rw [hgsome]; exact hgparse
  · rw [hsome]; exact hparse

theorem resolveAlarm_base_none {lookup : String → Option String} {d1 d2 d3 : Nat}
    {k : Alarm} (h : lookup k.name = none) :
    resolveAlarm lookup d1 d2 d3 k = Except.ok none := by
  simp [resolveAlarm, h]

theorem resolveAlarm_float_error {lookup : String → Option String} {d1 d2 d3 : Nat}
    {k : Alarm} {v : String} (hb : lookup k.name = some v)
    (hn : k.category = AlarmCategory.Numeric) (hf : isF64 v = false) :
    resolveAlarm lookup d1 d2 d3 k = Except.error (Error.ParseFloatWithMetadata k.name) := by
  simp [resolveAlarm, hb, hn, hf]

theorem resolveAlarm_ok_some_iff {lookup : String → Option String} {d1 d2 d3 : Nat}
    {k : Alarm} {cfg : AlarmConfig} :
    resolveAlarm lookup d1 d2 d3 k = Except.ok (some cfg) ↔
      ∃ v pm dp dpta,
        lookup k.name = some v ∧
        (k.category = AlarmCategory.Numeric → isF64 v = true) ∧
        readU16 lookup (k.name ++ "_PERIOD_MINUTES") d1 = Except.ok pm ∧
        readU16 lookup (k.name ++ "_DATA_POINTS") d2 = Except.ok dp ∧
        readU16 lookup (k.name ++ "_DATA_POINTS_TO_ALARM") d3 = Except.ok dpta ∧
        cfg = { value := v, period_minutes := clampMin MIN_PERIOD_MINUTES pm,
                data_points := clampMin MIN_DATA_POINTS dp,
                data_points_to_alarm := clampMin MIN_DATA_POINTS_TO_ALARM dpta } := by
  unfold resolveAlarm
  cases hb : lookup k.name with
  | none => simp
  | some v =>
    dsimp only
    by_cases hn : k.category = AlarmCategory.Numeric ∧ isF64 v = false
    · rw [if_pos hn]
      constructor
      · intro h; exact absurd h (by simp)
      · rintro ⟨v', pm, dp, dpta, hv, himp, -, -, -, -⟩
        injection hv with hv'
        subst hv'
        exact absurd (himp hn.1) (by simp [hn.2])
    · rw [if_neg hn]
      have himp : k.category = AlarmCategory.Numeric → isF64 v = true := by
        intro hc
        cases hf : isF64 v with
        | false => exact absurd ⟨hc, hf⟩ hn
        | true => rfl
      cases h1 : readU16 lookup (k.name ++ "_PERIOD_MINUTES") d1 with
      | error e => simp [h1]
      | ok pm =>
        cases h2 : readU16 lookup (k.name ++ "_DATA_POINTS") d2 with
        | error e => simp [h2]
        | ok dp =>
          cases h3 : readU16 lookup (k.name ++ "_DATA_POINTS_TO_ALARM") d3 with
          | error e => simp [h3]
          | ok dpta =>
            constructor
            · intro h
              injection h with h'
              injection h' with h''
              exact ⟨v, pm, dp, dpta, rfl, himp, rfl, rfl, rfl, h''.symm⟩
            · rintro ⟨v', pm', dp', dpta', hv, -, hpm, hdp, hdpta, rfl⟩
              injection hv with hv'
              injection hpm with hpm'
              injection hdp with hdp'
              injection hdpta with hdpta'
              subst hv'; subst hpm'; subst hdp'; subst hdpta'
              rfl

theorem resolveAlarm_error_iff {lookup : String → Option String} {d1 d2 d3 : Nat}
    {k : Alarm} {e : Error} :
    resolveAlarm lookup d1 d2 d3 k = Except.error e ↔ kindFirstError lookup k = some e := by
  unfold resolveAlarm kindFirstError
  cases hb : lookup k.name with
  | none => simp
  | some v =>
    dsimp only
    by_cases hn : k.category = AlarmCategory.Numeric ∧ isF64 v = false
    · rw [if_pos hn, if_pos hn]
      simp [eq_comm]
    · rw [if_neg hn, if_neg hn]
      cases c1 : checkU16 lookup (k.name ++ "_PERIOD_MINUTES") with
      | some e1 =>
        rw [(checkU16_some_iff (d := d1)).mp c1]
        simp [firstSome]
      | none =>
        obtain ⟨pm, h1⟩ := (checkU16_none_iff (d := d1)).mp c1
        rw [h1]
        rw [show firstSome none
          (firstSome (checkU16 lookup (k.name ++ "_DATA_POINTS"))
            (checkU16 lookup (k.name ++ "_DATA_POINTS_TO_ALARM"))) =
          firstSome (checkU16 lookup (k.name ++ "_DATA_POINTS"))
            (checkU16 lookup (k.name ++ "_DATA_POINTS_TO_ALARM")) from rfl]
        cases c2 : checkU16 lookup (k.name ++ "_DATA_POINTS") with
        | some e2 =>
          rw [(checkU16_some_iff (d := d2)).mp c2]
          simp [firstSome]
        | none =>
          obtain ⟨dp, h2⟩ := (checkU16_none_iff (d := d2)).mp c2
          rw [h2]
          rw [show firstSome none (checkU16 lookup (k.name ++ "_DATA_POINTS_TO_ALARM")) =
            checkU16 lookup (k.name ++ "_DATA_POINTS_TO_ALARM") from rfl]
          cases c3 : checkU16 lookup (k.name ++ "_DATA_POINTS_TO_ALARM") with
          | some e3 =>
            rw [(checkU16_some_iff (d := d3)).mp c3]
            simp
          | none =>
            obtain ⟨dpta, h3⟩ := (checkU16_none_iff (d := d3)).mp c3
            rw [h3]
            simp

theorem resolveAlarm_ok_of_kindFirstError_none {lookup : String → Option String}
    {d1 d2 d3 : Nat} {k : Alarm} (h : kindFirstError lookup k = none) :
    ∃ o, resolveAlarm lookup d1 d2 d3 k = Except.ok o := by
  cases hr : resolveAlarm lookup d1 d2 d3 k with
  | ok o => exact ⟨o, rfl⟩
  | error e => rw [resolveAlarm_error_iff.mp hr] at h; exact absurd h (by simp)

theorem kindFirstError_none_of_resolveAlarm_ok {lookup : String → Option String}
    {d1 d2 d3 : Nat} {k : Alarm} {o : Option AlarmConfig}
    (h : resolveAlarm lookup d1 d2 d3 k = Except.ok o) :
    kindFirstError lookup k = none := by
  cases hk : kindFirstError lookup k with
  | none => rfl
  | some e => rw [resolveAlarm_error_iff.mpr hk] at h; exact absurd h (by simp)

theorem resolveAlarm_ok_none_base {lookup : String → Option String} {d1 d2 d3 : Nat}
    {k : Alarm} (h : resolveAlarm lookup d1 d2 d3 k = Except.ok none) :
    lookup k.name = none := by
  cases hb : lookup k.name with
  | none => rfl
  | some v =>
    unfold resolveAlarm at h
    rw [hb] at h
    dsimp only at h
    split at h
    · exact absurd h (by simp)
    · split at h
      · exact absurd h (by simp)
      · split at h
        · exact absurd h (by simp)
        · split at h
          · exact absurd h (by simp)
          · exact absurd h (by simp)

theorem resolveKinds_error_iff {lookup : String → Option String} {d1 d2 d3 : Nat}
    {kinds : List Alarm} {e : Error} :
    resolveKinds lookup d1 d2 d3 kinds = Except.error e ↔
      kindsFirstError lookup kinds = some e := by
  induction kinds with
  | nil => simp [resolveKinds, kindsFirstError]
  | cons k rest ih =>
    unfold resolveKinds kindsFirstError
    cases ha : resolveAlarm lookup d1 d2 d3 k with
    | error e' =>
      rw [resolveAlarm_error_iff.mp ha]
      simp [firstSome]
    | ok o =>
      rw [kindFirstError_none_of_resolveAlarm_ok ha]
      cases o with
      | none => simpa [firstSome] using ih
      | some cfg =>
        cases hr : resolveKinds lookup d1 d2 d3 rest with
        | error e' =>
          rw [hr] at ih
          simpa [firstSome] using ih
        | ok m' =>
          rw [hr] at ih
          simpa [firstSome] using ih

theorem resolveKinds_cons_skip {lookup : String → Option String} {d1 d2 d3 : Nat}
    {k : Alarm} {kinds : List Alarm} (h : lookup k.name = none) :
    resolveKinds lookup d1 d2 d3 (k :: kinds) = resolveKinds lookup d1 d2 d3 kinds := by
  conv_lhs => rw [resolveKinds]
  rw [resolveAlarm_base_none h]

theorem resolveKinds_ok_mem {lookup : String → Option String} {d1 d2 d3 : Nat}
    {kinds : List Alarm} {m : List (Alarm × AlarmConfig)} {k : Alarm} {cfg : AlarmConfig}
    (h : resolveKinds lookup d1 d2 d3 kinds = Except.ok m) (hmem : (k, cfg) ∈ m) :
    k ∈ kinds ∧ resolveAlarm lookup d1 d2 d3 k = Except.ok (some cfg) := by
  induction kinds generalizing m with
  | nil =>
    unfold resolveKinds at h
    injection h with h'
    subst h'
    exact absurd hmem (by simp)
  | cons k0 rest ih =>
    unfold resolveKinds at h
    cases ha : resolveAlarm lookup d1 d2 d3 k0 with
    | error e => rw [ha] at h; exact absurd h (by simp)
    | ok o =>
      rw [ha] at h
      cases o with
      | none =>
        obtain ⟨hk, hr⟩ := ih h hmem
        exact ⟨List.mem_cons_of_mem _ hk, hr⟩
      | some cfg0 =>
        cases hr : resolveKinds lookup d1 d2 d3 rest with
        | error e => rw [hr] at h; exact absurd h (by simp)
        | ok m' =>
          rw [hr] at h
          injection h with h'
          subst h'
          rcases List.mem_cons.mp hmem with heq | hmem'
          · injection heq with he1 he2
            subst he1; subst he2
            exact ⟨List.mem_cons_self _ _, ha⟩
          · obtain ⟨hk, hres⟩ := ih hr hmem'
            exact ⟨List.mem_cons_of_mem _ hk, hres⟩

theorem resolveKinds_ok_map_fst {lookup : String → Option String} {d1 d2 d3 : Nat}
    {kinds : List Alarm} {m : List (Alarm × AlarmConfig)}
    (h : resolveKinds lookup d1 d2 d3 kinds = Except.ok m) :
    m.map Prod.fst = kinds.filter fun k => (lookup k.name).isSome := by
  induction kinds generalizing m with
  | nil =>
    unfold resolveKinds at h
    injection h with h'
    subst h'
    rfl
  | cons k0 rest ih =>
    unfold resolveKinds at h
    cases hb : lookup k0.name with
    | none =>
      rw [resolveAlarm_base_none hb] at h
      rw [List.filter_cons_of_neg (by simp [hb])]
      exact ih h
    | some v =>
      cases ha : resolveAlarm lookup d1 d2 d3 k0 with
      | error e => rw [ha] at h; exact absurd h (by simp)
      | ok o =>
        rw [ha] at h
        cases o with
        | none => exact absurd (resolveAlarm_ok_none_base ha) (by simp [hb])
        | some cfg =>
          cases hr : resolveKinds lookup d1 d2 d3 rest with
          | error e => rw [hr] at h; exact absurd h (by simp)
          | ok m' =>
            rw [hr] at h
            injection h with h'
            subst h'
            rw [List.filter_cons_of_pos (by simp [hb])]
            simpa using ih hr

theorem resolveKinds_ok_of_mem {lookup : String → Option String} {d1 d2 d3 : Nat}
    {kinds : List Alarm} {m : List (Alarm × AlarmConfig)} {k : Alarm}
    (h : resolveKinds lookup d1 d2 d3 kinds = Except.ok m) (hk : k ∈ kinds) :
    ∃ o, resolveAlarm lookup d1 d2 d3 k = Except.ok o := by
  induction kinds generalizing m with
  | nil => exact absurd hk (by simp)
  | cons k0 rest ih =>
    unfold resolveKinds at h
    cases ha : resolveAlarm lookup d1 d2 d3 k0 with
    | error e => rw [ha] at h; exact absurd h (by simp)
    | ok o =>
      rw [ha] at h
      rcases List.mem_cons.mp hk with rfl | hk'
      · exact ⟨o, ha⟩
      · cases o with
        | none => exact ih h hk'
        | some cfg =>
          cases hr : resolveKinds lookup d1 d2 d3 rest with
          | error e => rw [hr] at h; exact absurd h (by simp)
          | ok m' => exact ih hr hk'

theorem optional_ok_elim {lookup : String → Option String} {kinds : List Alarm}
    {m : List (Alarm × AlarmConfig)} (h : optional lookup kinds = Except.ok m) :
    ∃ d1 d2 d3,
      readU16 lookup "PERIOD_MINUTES" DEFAULT_PERIOD_MINUTES = Except.ok d1 ∧
      readU16 lookup "DATA_POINTS" DEFAULT_DATA_POINTS = Except.ok d2 ∧
      readU16 lookup "DATA_POINTS_TO_ALARM" DEFAULT_DATA_POINTS_TO_ALARM = Except.ok d3 ∧
      resolveKinds lookup d1 d2 d3 kinds = Except.ok m := by
  unfold optional at h
  cases h1 : readU16 lookup "PERIOD_MINUTES" DEFAULT_PERIOD_MINUTES with
  | error e => rw [h1] at h; exact absurd h (by simp)
  | ok d1 =>
    rw [h1] at h
    cases h2 : readU16 lookup "DATA_POINTS" DEFAULT_DATA_POINTS with
    | error e => rw [h2] at h; exact absurd h (by simp)
    | ok d2 =>
      rw [h2] at h
      cases h3 : readU16 lookup "DATA_POINTS_TO_ALARM" DEFAULT_DATA_POINTS_TO_ALARM with
      | error e => rw [h3] at h; exact absurd h (by simp)
      | ok d3 => exact ⟨d1, d2, d3, rfl, rfl, rfl, by rw [h3] at h; exact h⟩

theorem optional_error_iff {lookup : String → Option String} {kinds : List Alarm}
    {e : Error} :
    optional lookup kinds = Except.error e ↔ specFirstError lookup kinds = some e := by
  unfold optional specFirstError
  cases c1 : checkU16 lookup "PERIOD_MINUTES" with
  | some e1 =>
    rw [(checkU16_some_iff (d := DEFAULT_PERIOD_MINUTES)).mp c1]
    simp [firstSome]
  | none =>
    obtain ⟨d1, h1⟩ := (checkU16_none_iff (d := DEFAULT_PERIOD_MINUTES)).mp c1
    rw [h1]
    rw [show firstSome none
      (firstSome (checkU16 lookup "DATA_POINTS")
        (firstSome (checkU16 lookup "DATA_POINTS_TO_ALARM") (kindsFirstError lookup kinds))) =
      firstSome (checkU16 lookup "DATA_POINTS")
        (firstSome (checkU16 lookup "DATA_POINTS_TO_ALARM") (kindsFirstError lookup kinds))
      from rfl]
    cases c2 : checkU16 lookup "DATA_POINTS" with
    | some e2 =>
      rw [(checkU16_some_iff (d := DEFAULT_DATA_POINTS)).mp c2]
      simp [firstSome]
    | none =>
      obtain ⟨d2, h2⟩ := (checkU16_none_iff (d := DEFAULT_DATA_POINTS)).mp c2
      rw [h2]
      rw [show firstSome none
        (firstSome (checkU16 lookup "DATA_POINTS_TO_ALARM") (kindsFirstError lookup kinds)) =
        firstSome (checkU16 lookup "DATA_POINTS_TO_ALARM") (kindsFirstError lookup kinds)
        from rfl]
      cases c3 : checkU16 lookup "DATA_POINTS_TO_ALARM" with
      | some e3 =>
        rw [(checkU16_some_iff (d := DEFAULT_DATA_POINTS_TO_ALARM)).mp c3]
        simp [firstSome]
      | none =>
        obtain ⟨d3, h3⟩ := (checkU16_none_iff (d := DEFAULT_DATA_POINTS_TO_ALARM)).mp c3
        rw [h3]
        rw [show firstSome none (kindsFirstError lookup kinds) =
          kindsFirstError lookup kinds from rfl]
        exact resolveKinds_error_iff

theorem optional_error_of_specFirstError_some {lookup : String → Option String}
    {kinds : List Alarm} (h : specFirstError lookup kinds ≠ none) :
    ∃ e, optional lookup kinds = Except.error e := by
  cases hs : specFirstError lookup kinds with
  | none => exact absurd hs h
  | some e => exact ⟨e, optional_error_iff.mpr hs⟩

theorem append_suffix_ne {s t : String} (ht : t.length ≠ 0) : s ++ t ≠ s := by
  intro h
  have hl := congrArg String.length h
  rw [String.length_append] at hl
  omega

theorem firstSome_none_left {b : Option Error} : firstSome none b = b := rfl

theorem firstSome_some_left {e : Error} {b : Option Error} :
    firstSome (some e) b = some e := rfl

theorem kindsFirstError_append_none {lookup : String → Option String}
    {pre rest : List Alarm} (h : ∀ k ∈ pre, kindFirstError lookup k = none) :
    kindsFirstError lookup (pre ++ rest) = kindsFirstError lookup rest := by
  induction pre with
  | nil => rfl
  | cons k0 pre' ih =>
    rw [List.cons_append]
    show firstSome (kindFirstError lookup k0) (kindsFirstError lookup (pre' ++ rest)) =
      kindsFirstError lookup rest
    rw [h k0 (List.mem_cons_self _ _), firstSome_none_left]
    exact ih fun k hk => h k (List.mem_cons_of_mem _ hk)

theorem kindsFirstError_ne_none_of_mem {lookup : String → Option String}
    {kinds : List Alarm} {k : Alarm} (hk : k ∈ kinds)
    (h : kindFirstError lookup k ≠ none) :
    kindsFirstError lookup kinds ≠ none := by
  induction kinds with
  | nil => exact absurd hk (by simp)
  | cons k0 rest ih =>
    show firstSome (kindFirstError lookup k0) (kindsFirstError lookup rest) ≠ none
    cases h0 : kindFirstError lookup k0 with
    | some e => simp [firstSome_some_left]
    | none =>
      rw [firstSome_none_left]
      rcases List.mem_cons.mp hk with rfl | hk'
      · exact absurd h0 h
      · exact ih hk'

theorem specFirstError_ne_none_of_kinds {lookup : String → Option String}
    {kinds : List Alarm} (h : kindsFirstError lookup kinds ≠ none) :
    specFirstError lookup kinds ≠ none := by
  unfold specFirstError
  cases c1 : checkU16 lookup "PERIOD_MINUTES" with
  | some e => simp [firstSome_some_left]
  | none =>
    rw [firstSome_none_left]
    cases c2 : checkU16 lookup "DATA_POINTS" with
    | some e => simp [firstSome_some_left]
    | none =>
      rw [firstSome_none_left]
      cases c3 : checkU16 lookup "DATA_POINTS_TO_ALARM" with
      | some e => simp [firstSome_some_left]
      | none => rw [firstSome_none_left]; exact h

theorem specFirstError_ne_none_of_global {lookup : String → Option String}
    {kinds : List Alarm} {g : String}
    (hg : g = "PERIOD_MINUTES" ∨ g = "DATA_POINTS" ∨ g = "DATA_POINTS_TO_ALARM")
    (h : checkU16 lookup g ≠ none) :
    specFirstError lookup kinds ≠ none := by
  unfold specFirstError
  rcases hg with rfl | rfl | rfl
  · cases c1 : checkU16 lookup "PERIOD_MINUTES" with
    | some e => simp [firstSome_some_left]
    | none => exact absurd c1 h
  · cases c1 : checkU16 lookup "PERIOD_MINUTES" with
    | some e => simp [firstSome_some_left]
    | none =>
      rw [firstSome_none_left]
      cases c2 : checkU16 lookup "DATA_POINTS" with
      | some e => simp [firstSome_some_left]
      | none => exact absurd c2 h
  · cases c1 : checkU16 lookup "PERIOD_MINUTES" with
    | some e => simp [firstSome_some_left]
    | none =>
      rw [firstSome_none_left]
      cases c2 : checkU16 lookup "DATA_POINTS" with
      | some e => simp [firstSome_some_left]
      | none =>
        rw [firstSome_none_left]
        cases c3 : checkU16 lookup "DATA_POINTS_TO_ALARM" with
        | some e => simp [firstSome_some_left]
        | none => exact absurd c3 h

theorem checkU16_ne_none_of_fail {lookup : String → Option String} {key s : String}
    (hs : lookup key = some s) (hp : parseU16 s = none) :
    checkU16 lookup key ≠ none := by
  simp [checkU16, hs, hp]

theorem kindFirstError_float {lookup : String → Option String} {k : Alarm} {v : String}
    (hb : lookup k.name = some v) (hn : k.category = AlarmCategory.Numeric)
    (hf : isF64 v = false) :
    kindFirstError lookup k = some (Error.ParseFloatWithMetadata k.name) := by
  simp [kindFirstError, hb, hn, hf]

theorem kindFirstError_ne_none_of_scoped {lookup : String → Option String} {k : Alarm}
    {v sfx s : String} (hb : lookup k.name = some v)
    (hfl : k.category = AlarmCategory.Numeric → isF64 v = true)
    (hsuf : sfx = "_PERIOD_MINUTES" ∨ sfx = "_DATA_POINTS" ∨ sfx = "_DATA_POINTS_TO_ALARM")
    (hs : lookup (k.name ++ sfx) = some s) (hp : parseU16 s = none) :
    kindFirstError lookup k ≠ none := by
  unfold kindFirstError
  rw [hb]
  dsimp only
  rw [if_neg fun hh => by rw [hfl hh.1] at hh; exact absurd hh.2 (by simp)]
  have hcheck : checkU16 lookup (k.name ++ sfx) ≠ none := checkU16_ne_none_of_fail hs hp
  rcases hsuf with rfl | rfl | rfl
  · cases c1 : checkU16 lookup (k.name ++ "_PERIOD_MINUTES") with
    | some e => simp [firstSome_some_left]
    | none => exact absurd c1 hcheck
  · cases c1 : checkU16 lookup (k.name ++ "_PERIOD_MINUTES") with
    | some e => simp [firstSome_some_left]
    | none =>
      rw [firstSome_none_left]
      cases c2 : checkU16 lookup (k.name ++ "_DATA_POINTS") with
      | some e => simp [firstSome_some_left]
      | none => exact absurd c2 hcheck
  · cases c1 : checkU16 lookup (k.name ++ "_PERIOD_MINUTES") with
    | some e => simp [firstSome_some_left]
    | none =>
      rw [firstSome_none_left]
      cases c2 : checkU16 lookup (k.name ++ "_DATA_POINTS") with
      | some e => simp [firstSome_some_left]
      | none =>
        rw [firstSome_none_left]
        cases c3 : checkU16 lookup (k.name ++ "_DATA_POINTS_TO_ALARM") with
        | some e => simp [firstSome_some_left]
        | none => exact absurd c3 hcheck

theorem optional_ok_mem {lookup : String → Option String} {kinds : List Alarm}
    {m : List (Alarm × AlarmConfig)} {k : Alarm} {cfg : AlarmConfig}
    (h : optional lookup kinds = Except.ok m) (hmem : (k, cfg) ∈ m) :
    lookup k.name = some cfg.value ∧
    (k.category = AlarmCategory.Numeric → isF64 cfg.value = true) ∧
    (∃ p, layeredValue lookup (k.name ++ "_PERIOD_MINUTES") "PERIOD_MINUTES"
        DEFAULT_PERIOD_MINUTES = some p ∧
        cfg.period_minutes = clampMin MIN_PERIOD_MINUTES p) ∧
    (∃ p, layeredValue lookup (k.name ++ "_DATA_POINTS") "DATA_POINTS"
        DEFAULT_DATA_POINTS = some p ∧ cfg.data_points = clampMin MIN_DATA_POINTS p) ∧
    (∃ p, layeredValue lookup (k.name ++ "_DATA_POINTS_TO_ALARM") "DATA_POINTS_TO_ALARM"
        DEFAULT_DATA_POINTS_TO_ALARM = some p ∧
        cfg.data_points_to_alarm = clampMin MIN_DATA_POINTS_TO_ALARM p) := by
  obtain ⟨d1, d2, d3, h1, h2, h3, hres⟩ := optional_ok_elim h
  obtain ⟨-, hra⟩ := resolveKinds_ok_mem hres hmem
  obtain ⟨v, pm, dp, dpta, hb, himp, hpm, hdp, hdpta, rfl⟩ := resolveAlarm_ok_some_iff.mp hra
  exact ⟨hb, himp,
    ⟨pm, layeredValue_of_readU16 h1 hpm, rfl⟩,
    ⟨dp, layeredValue_of_readU16 h2 hdp, rfl⟩,
    ⟨dpta, layeredValue_of_readU16 h3 hdpta, rfl⟩⟩

theorem optional_cons_skip {lookup : String → Option String} {k : Alarm}
    {kinds : List Alarm} (h : lookup k.name = none) :
    optional lookup (k :: kinds) = optional lookup kinds := by
  unfold optional
  cases readU16 lookup "PERIOD_MINUTES" DEFAULT_PERIOD_MINUTES with
  | error e => rfl
  | ok d1 =>
    cases readU16 lookup "DATA_POINTS" DEFAULT_DATA_POINTS with
    | error e => rfl
    | ok d2 =>
      cases readU16 lookup "DATA_POINTS_TO_ALARM" DEFAULT_DATA_POINTS_TO_ALARM with
      | error e => rfl
      | ok d3 => exact resolveKinds_cons_skip h

theorem optional_single {k : Alarm} {v : String}
    (h1 : k.name ≠ "PERIOD_MINUTES") (h2 : k.name ≠ "DATA_POINTS")
    (h3 : k.name ≠ "DATA_POINTS_TO_ALARM")
    (hv : k.category = AlarmCategory.Numeric → isF64 v = true) :
    optional (fun key => if key = k.name then some v else none) [k] =
      Except.ok [(k, { value := v,
                       period_minutes := DEFAULT_PERIOD_MINUTES,
                       data_points := DEFAULT_DATA_POINTS,
                       data_points_to_alarm := DEFAULT_DATA_POINTS_TO_ALARM })] := by
  have lpm : (fun key => if key = k.name then some v else none) "PERIOD_MINUTES" = none :=
    if_neg (Ne.symm h1)
  have ldp : (fun key => if key = k.name then some v else none) "DATA_POINTS" = none :=
    if_neg (Ne.symm h2)
  have ldpta : (fun key => if key = k.name then some v else none) "DATA_POINTS_TO_ALARM" =
      none := if_neg (Ne.symm h3)
  have lbase : (fun key => if key = k.name then some v else none) k.name = some v :=
    if_pos rfl
  have lspm : (fun key => if key = k.name then some v else none)
      (k.name ++ "_PERIOD_MINUTES") = none :=
    if_neg (append_suffix_ne (by decide))
  have lsdp : (fun key => if key = k.name then some v else none)
      (k.name ++ "_DATA_POINTS") = none :=
    if_neg (append_suffix_ne (by decide))
  have lsdpta : (fun key => if key = k.name then some v else none)
      (k.name ++ "_DATA_POINTS_TO_ALARM") = none :=
    if_neg (append_suffix_ne (by decide))
  have hra : resolveAlarm (fun key => if key = k.name then some v else none)
      DEFAULT_PERIOD_MINUTES DEFAULT_DATA_POINTS DEFAULT_DATA_POINTS_TO_ALARM k =
      Except.ok (some { value := v,
                        period_minutes := clampMin MIN_PERIOD_MINUTES DEFAULT_PERIOD_MINUTES,
                        data_points := clampMin MIN_DATA_POINTS DEFAULT_DATA_POINTS,
                        data_points_to_alarm :=
                          clampMin MIN_DATA_POINTS_TO_ALARM DEFAULT_DATA_POINTS_TO_ALARM }) :=
    resolveAlarm_ok_some_iff.mpr
      ⟨v, DEFAULT_PERIOD_MINUTES, DEFAULT_DATA_POINTS, DEFAULT_DATA_POINTS_TO_ALARM,
        lbase, hv, readU16_none lspm, readU16_none lsdp, readU16_none lsdpta, rfl⟩
  unfold optional
  rw [readU16_none lpm, readU16_none ldp, readU16_none ldpta]
  dsimp only
  conv_lhs => rw [resolveKinds]
  rw [hra]
  rfl

theorem le_clampMin (lo n : Nat) : lo ≤ clampMin lo n := by
  unfold clampMin
  split <;> omega

theorem clampMin_of_lt {lo n : Nat} (h : n < lo) : clampMin lo n = lo := if_pos h

/-- Claim C1: on a successful resolution the returned mapping contains
exactly one entry for every alarm kind whose base value key is present in
the lookup (whose value, for Numeric kinds, therefore parses as a float),
and no entry for any kind whose base key is absent — absence never causes
an error, the kind is merely omitted. -/
theorem c1_result_domain {lookup : String → Option String} {kinds : List Alarm}
    {m : List (Alarm × AlarmConfig)} (hnd : kinds.Nodup)
    (hok : optional lookup kinds = Except.ok m) {k : Alarm} (hk : k ∈ kinds) :
    (m.map Prod.fst).count k = if (lookup k.name).isSome then 1 else 0 := by
  obtain ⟨d1, d2, d3, -, -, -, hres⟩ := optional_ok_elim hok
  rw [resolveKinds_ok_map_fst hres]
  cases hb : lookup k.name with
  | none =>
    simp only [hb, Option.isSome_none, Bool.false_eq_true, if_false]
    refine List.count_eq_zero_of_not_mem fun hmem => ?_
    have h2 := (List.mem_filter.mp hmem).2
    rw [hb] at h2
    exact absurd h2 (by simp)
  | some v =>
    simp only [hb, Option.isSome_some, if_true]
    exact List.count_eq_one_of_mem (hnd.filter _)
      (List.mem_filter.mpr ⟨hk, by rw [hb]; rfl⟩)

/-- Witness for C1 at a concrete lookup: base key present for the CPU lower
limit (count one), absent for the health check (count zero). -/
theorem c1_result_domain_witness :
    optional (lookupBase "3") [CpuLowerLimitVcpus, HealthCheckFailed] =
      Except.ok [(CpuLowerLimitVcpus,
        { value := "3", period_minutes := 1, data_points := 5, data_points_to_alarm := 3 })] ∧
    (List.map Prod.fst [(CpuLowerLimitVcpus,
      ({ value := "3", period_minutes := 1, data_points := 5,
         data_points_to_alarm := 3 } : AlarmConfig))]).count CpuLowerLimitVcpus = 1 ∧
    (List.map Prod.fst [(CpuLowerLimitVcpus,
      ({ value := "3", period_minutes := 1, data_points := 5,
         data_points_to_alarm := 3 } : AlarmConfig))]).count HealthCheckFailed = 0 := by
  refine ⟨rfl, ?_, ?_⟩
  · have h := @c1_result_domain (lookupBase "3") [CpuLowerLimitVcpus, HealthCheckFailed]
      [(CpuLowerLimitVcpus,
        { value := "3", period_minutes := 1, data_points := 5, data_points_to_alarm := 3 })]
      (by decide) rfl CpuLowerLimitVcpus (by decide)
    exact h.trans (by rfl)
  · have h := @c1_result_domain (lookupBase "3") [CpuLowerLimitVcpus, HealthCheckFailed]
      [(CpuLowerLimitVcpus,
        { value := "3", period_minutes := 1, data_points := 5, data_points_to_alarm := 3 })]
      (by decide) rfl HealthCheckFailed (by decide)
    exact h.trans (by rfl)

/-- Claim C2: for each tunable of a kind present in the result, the value
used (before clamping) is the kind-scoped key's parse when present,
otherwise the global key's parse when present, otherwise the hard-coded
defaults `period = 1`, `data_points = 5`, `data_points_to_alarm = 3`; the
stored field is that layered value after clamping. -/
theorem c2_layered_defaults {lookup : String → Option String} {kinds : List Alarm}
    {m : List (Alarm × AlarmConfig)} {k : Alarm} {cfg : AlarmConfig}
    (hok : optional lookup kinds = Except.ok m) (hmem : (k, cfg) ∈ m) :
    (∃ p, layeredValue lookup (k.name ++ "_PERIOD_MINUTES") "PERIOD_MINUTES"
        DEFAULT_PERIOD_MINUTES = some p ∧
        cfg.period_minutes = clampMin MIN_PERIOD_MINUTES p) ∧
    (∃ p, layeredValue lookup (k.name ++ "_DATA_POINTS") "DATA_POINTS"
        DEFAULT_DATA_POINTS = some p ∧ cfg.data_points = clampMin MIN_DATA_POINTS p) ∧
    (∃ p, layeredValue lookup (k.name ++ "_DATA_POINTS_TO_ALARM") "DATA_POINTS_TO_ALARM"
        DEFAULT_DATA_POINTS_TO_ALARM = some p ∧
        cfg.data_points_to_alarm = clampMin MIN_DATA_POINTS_TO_ALARM p) := by
  obtain ⟨-, -, hp1, hp2, hp3⟩ := optional_ok_mem hok hmem
  exact ⟨hp1, hp2, hp3⟩

/-- Witness for C2 at a concrete lookup: a scoped period override of 7, a
global data-points default of 9, and the hard-coded 3 for the third. -/
theorem c2_layered_defaults_witness :
    optional lookupLayered [CpuLowerLimitVcpus] =
      Except.ok [(CpuLowerLimitVcpus,
        { value := "3", period_minutes := 7, data_points := 9, data_points_to_alarm := 3 })] ∧
    (∃ p, layeredValue lookupLayered ("CPU_LOWER_LIMIT_VCPUS" ++ "_PERIOD_MINUTES")
        "PERIOD_MINUTES" DEFAULT_PERIOD_MINUTES = some p ∧
        (7 : Nat) = clampMin MIN_PERIOD_MINUTES p) ∧
    (∃ p, layeredValue lookupLayered ("CPU_LOWER_LIMIT_VCPUS" ++ "_DATA_POINTS")
        "DATA_POINTS" DEFAULT_DATA_POINTS = some p ∧
        (9 : Nat) = clampMin MIN_DATA_POINTS p) := by
  have h := @c2_layered_defaults lookupLayered [CpuLowerLimitVcpus]
    [(CpuLowerLimitVcpus,
      { value := "3", period_minutes := 7, data_points := 9, data_points_to_alarm := 3 })]
    CpuLowerLimitVcpus
    { value := "3", period_minutes := 7, data_points := 9, data_points_to_alarm := 3 }
    rfl (by simp)
  exact ⟨rfl, h.1, h.2.1⟩

/-- Claim C3: every record in a successfully returned mapping has all three
tunables at or above their minimum 1, and whenever the resolved (layered,
pre-clamp) value of a tunable is below 1 the stored field is exactly the
minimum 1 — clamping, never failure. -/
theorem c3_minimum_clamping {lookup : String → Option String} {kinds : List Alarm}
    {m : List (Alarm × AlarmConfig)} {k : Alarm} {cfg : AlarmConfig}
    (hok : optional lookup kinds = Except.ok m) (hmem : (k, cfg) ∈ m) :
    (MIN_PERIOD_MINUTES ≤ cfg.period_minutes ∧
     MIN_DATA_POINTS ≤ cfg.data_points ∧
     MIN_DATA_POINTS_TO_ALARM ≤ cfg.data_points_to_alarm) ∧
    (∀ p, layeredValue lookup (k.name ++ "_PERIOD_MINUTES") "PERIOD_MINUTES"
        DEFAULT_PERIOD_MINUTES = some p → p < MIN_PERIOD_MINUTES →
        cfg.period_minutes = MIN_PERIOD_MINUTES) ∧
    (∀ p, layeredValue lookup (k.name ++ "_DATA_POINTS") "DATA_POINTS"
        DEFAULT_DATA_POINTS = some p → p < MIN_DATA_POINTS →
        cfg.data_points = MIN_DATA_POINTS) ∧
    (∀ p, layeredValue lookup (k.name ++ "_DATA_POINTS_TO_ALARM") "DATA_POINTS_TO_ALARM"
        DEFAULT_DATA_POINTS_TO_ALARM = some p → p < MIN_DATA_POINTS_TO_ALARM →
        cfg.data_points_to_alarm = MIN_DATA_POINTS_TO_ALARM) := by
  obtain ⟨-, -, ⟨p1, hl1, he1⟩, ⟨p2, hl2, he2⟩, ⟨p3, hl3, he3⟩⟩ := optional_ok_mem hok hmem
  refine ⟨⟨?_, ?_, ?_⟩, ?_, ?_, ?_⟩
  · rw [he1]; exact le_clampMin _ _
  · rw [he2]; exact le_clampMin _ _
  · rw [he3]; exact le_clampMin _ _
  · intro p hp hlt
    rw [hl1] at hp
    injection hp with hp'
    subst hp'
    rw [he1, clampMin_of_lt hlt]
  · intro p hp hlt
    rw [hl2] at hp
    injection hp with hp'
    subst hp'
    rw [he2, clampMin_of_lt hlt]
  · intro p hp hlt
    rw [hl3] at hp
    injection hp with hp'
    subst hp'
    rw [he3, clampMin_of_lt hlt]

/-- Witness for C3 at a concrete lookup: a scoped period of 0 is clamped to
exactly 1 and resolution still succeeds. -/
theorem c3_minimum_clamping_witness :
    optional lookupZeroPeriod [CpuLowerLimitVcpus] =
      Except.ok [(CpuLowerLimitVcpus,
        { value := "3", period_minutes := 1, data_points := 5, data_points_to_alarm := 3 })] ∧
    (MIN_PERIOD_MINUTES ≤ 1 ∧ MIN_DATA_POINTS ≤ 5 ∧ MIN_DATA_POINTS_TO_ALARM ≤ 3) ∧
    (layeredValue lookupZeroPeriod ("CPU_LOWER_LIMIT_VCPUS" ++ "_PERIOD_MINUTES")
        "PERIOD_MINUTES" DEFAULT_PERIOD_MINUTES = some 0 → (0 : Nat) < MIN_PERIOD_MINUTES →
        (1 : Nat) = MIN_PERIOD_MINUTES) := by
  have h := @c3_minimum_clamping lookupZeroPeriod [CpuLowerLimitVcpus]
    [(CpuLowerLimitVcpus,
      { value := "3", period_minutes := 1, data_points := 5, data_points_to_alarm := 3 })]
    CpuLowerLimitVcpus
    { value := "3", period_minutes := 1, data_points := 5, data_points_to_alarm := 3 }
    rfl (by simp)
  exact ⟨rfl, h.1, h.2.1 0⟩

/-- Claim C8: the `value` field of every returned record is, character for
character, the string the lookup returned for the kind's base key — float
validation never replaces or normalises the stored representation. -/
theorem c8_value_verbatim {lookup : String → Option String} {kinds : List Alarm}
    {m : List (Alarm × AlarmConfig)} {k : Alarm} {cfg : AlarmConfig}
    (hok : optional lookup kinds = Except.ok m) (hmem : (k, cfg) ∈ m) :
    lookup k.name = some cfg.value :=
  (optional_ok_mem hok hmem).1

/-- Witness for C8 at a concrete lookup: the stored value is exactly the
looked-up string `"5."`, not a normalised form. -/
theorem c8_value_verbatim_witness :
    optional (lookupBase "5.") [CpuLowerLimitVcpus] =
      Except.ok [(CpuLowerLimitVcpus,
        { value := "5.", period_minutes := 1, data_points := 5, data_points_to_alarm := 3 })] ∧
    lookupBase "5." "CPU_LOWER_LIMIT_VCPUS" = some "5." := by
  refine ⟨rfl, ?_⟩
  have h := @c8_value_verbatim (lookupBase "5.") [CpuLowerLimitVcpus]
    [(CpuLowerLimitVcpus,
      { value := "5.", period_minutes := 1, data_points := 5, data_points_to_alarm := 3 })]
    CpuLowerLimitVcpus
    { value := "5.", period_minutes := 1, data_points := 5, data_points_to_alarm := 3 }
    rfl (by simp)
  exact h

/-- Claim C9: when a kind's base key is absent, its scoped tunable keys are
never consulted: the kind's resolution step returns no entry and no error
whatever those keys hold, and the whole resolution of a kind list starting
with that kind equals the resolution without it. -/
theorem c9_absent_base_skips_overrides {lookup : String → Option String} {k : Alarm}
    (h : lookup k.name = none) :
    (∀ d1 d2 d3, resolveAlarm lookup d1 d2 d3 k = Except.ok none) ∧
    (∀ kinds, optional lookup (k :: kinds) = optional lookup kinds) :=
  ⟨fun _ _ _ => resolveAlarm_base_none h, fun _ => optional_cons_skip h⟩

/-- Witness for C9 at a concrete lookup: a malformed scoped period key
(value `"a"`) with the base key absent — the kind is skipped, resolution
succeeds with an empty mapping. -/
theorem c9_absent_base_skips_overrides_witness :
    lookupScopedBad "CPU_LOWER_LIMIT_VCPUS_PERIOD_MINUTES" = some "a" ∧
    resolveAlarm lookupScopedBad 1 5 3 CpuLowerLimitVcpus = Except.ok none ∧
    optional lookupScopedBad [CpuLowerLimitVcpus] = optional lookupScopedBad [] ∧
    optional lookupScopedBad [CpuLowerLimitVcpus] = Except.ok [] := by
  have h := @c9_absent_base_skips_overrides lookupScopedBad CpuLowerLimitVcpus rfl
  exact ⟨rfl, h.1 1 5 3, h.2 [], rfl⟩

/-- Claim C4 counterexample: a present kind-scoped tunable key whose value
fails to parse as a u16 (`"a"`) does not fail resolution when that kind's
base key is absent — the call succeeds with an empty mapping, refuting the
claim as stated. -/
theorem c4_counterexample :
    lookupScopedBad "CPU_LOWER_LIMIT_VCPUS_PERIOD_MINUTES" = some "a" ∧
    parseU16 "a" = none ∧
    lookupScopedBad "CPU_LOWER_LIMIT_VCPUS" = none ∧
    optional lookupScopedBad [CpuLowerLimitVcpus] = Except.ok [] :=
  ⟨rfl, by decide, rfl, rfl⟩

/-- Claim C4 (amended): a present malformed global tunable key, or a present
malformed kind-scoped tunable key of a kind whose base key is present (and,
for Numeric kinds, parses as a float), fails the whole resolution call — no
mapping, not even a partial one, is returned, regardless of how many other
keys are well-formed; the surfaced error is the first parse failure in
resolution order (an InvalidInteger error naming the malformed key when that
key is the first failure); scoped keys of kinds whose base key is absent are
never consulted and cause no error. -/
theorem c4_invalid_integer_fails {lookup : String → Option String} {kinds : List Alarm} :
    (∀ g, (g = "PERIOD_MINUTES" ∨ g = "DATA_POINTS" ∨ g = "DATA_POINTS_TO_ALARM") →
      ∀ s, lookup g = some s → parseU16 s = none →
      ∃ e, optional lookup kinds = Except.error e) ∧
    (∀ k, k ∈ kinds → ∀ v, lookup k.name = some v →
      (k.category = AlarmCategory.Numeric → isF64 v = true) →
      ∀ sfx, (sfx = "_PERIOD_MINUTES" ∨ sfx = "_DATA_POINTS" ∨
        sfx = "_DATA_POINTS_TO_ALARM") →
      ∀ s, lookup (k.name ++ sfx) = some s → parseU16 s = none →
      ∃ e, optional lookup kinds = Except.error e) ∧
    (∀ g, specFirstError lookup kinds = some (Error.ParseIntWithMetadata g) →
      optional lookup kinds = Except.error (Error.ParseIntWithMetadata g)) ∧
    (∀ k : Alarm, lookup k.name = none → ∀ d1 d2 d3,
      resolveAlarm lookup d1 d2 d3 k = Except.ok none) := by
  refine ⟨?_, ?_, ?_, ?_⟩
  · intro g hg s hs hp
    exact optional_error_of_specFirstError_some
      (specFirstError_ne_none_of_global hg (checkU16_ne_none_of_fail hs hp))
  · intro k hk v hb hfl sfx hsfx s hs hp
    exact optional_error_of_specFirstError_some
      (specFirstError_ne_none_of_kinds
        (kindsFirstError_ne_none_of_mem hk
          (kindFirstError_ne_none_of_scoped hb hfl hsfx hs hp)))
  · intro g hg
    exact optional_error_iff.mpr hg
  · intro k hnone d1 d2 d3
    exact resolveAlarm_base_none hnone

/-- Witness for the amended C4 at concrete lookups: a malformed global
period key, and a malformed scoped data-points key under a present base key,
each fail the whole call. -/
theorem c4_invalid_integer_fails_witness :
    (∃ e, optional lookupGlobalBad [CpuLowerLimitVcpus] = Except.error e) ∧
    (∃ e, optional lookupBothBad [CpuLowerLimitVcpus] = Except.error e) := by
  constructor
  · exact (@c4_invalid_integer_fails lookupGlobalBad
      [CpuLowerLimitVcpus]).1 "PERIOD_MINUTES" (Or.inl rfl) "b" rfl (by decide)
  · exact (@c4_invalid_integer_fails lookupBothBad
      [CpuLowerLimitVcpus]).2.1 CpuLowerLimitVcpus (by decide) "3" rfl
      (fun _ => by decide) "_DATA_POINTS" (Or.inr (Or.inl rfl)) "x" rfl (by decide)

/-- Claim C5: a present Numeric base value that fails float parsing fails
the whole resolution; when no earlier key in resolution order fails, the
surfaced error is the InvalidFloat error naming the kind's key; the
Signal-category kind accepts any string with no numeric validation. -/
theorem c5_float_validation {lookup : String → Option String} {kinds : List Alarm}
    {k : Alarm} {v : String} :
    (k ∈ kinds → k.category = AlarmCategory.Numeric → lookup k.name = some v →
      isF64 v = false → ∃ e, optional lookup kinds = Except.error e) ∧
    (∀ pre post, kinds = pre ++ k :: post →
      k.category = AlarmCategory.Numeric → lookup k.name = some v → isF64 v = false →
      checkU16 lookup "PERIOD_MINUTES" = none →
      checkU16 lookup "DATA_POINTS" = none →
      checkU16 lookup "DATA_POINTS_TO_ALARM" = none →
      (∀ k' ∈ pre, kindFirstError lookup k' = none) →
      optional lookup kinds = Except.error (Error.ParseFloatWithMetadata k.name)) ∧
    (k.category = AlarmCategory.Signal → lookup k.name = some v →
      ∀ d1 d2 d3,
        checkU16 lookup (k.name ++ "_PERIOD_MINUTES") = none →
        checkU16 lookup (k.name ++ "_DATA_POINTS") = none →
        checkU16 lookup (k.name ++ "_DATA_POINTS_TO_ALARM") = none →
        ∃ cfg, resolveAlarm lookup d1 d2 d3 k = Except.ok (some cfg) ∧ cfg.value = v) := by
  refine ⟨?_, ?_, ?_⟩
  · intro hk hnum hb hbad
    refine optional_error_of_specFirstError_some
      (specFirstError_ne_none_of_kinds (kindsFirstError_ne_none_of_mem hk ?_))
    rw [kindFirstError_float hb hnum hbad]
    simp
  · intro pre post hsplit hnum hb hbad c1 c2 c3 hpre
    apply optional_error_iff.mpr
    unfold specFirstError
    rw [c1, firstSome_none_left, c2, firstSome_none_left, c3, firstSome_none_left, hsplit]
    rw [kindsFirstError_append_none hpre]
    show firstSome (kindFirstError lookup k) (kindsFirstError lookup post) = _
    rw [kindFirstError_float hb hnum hbad]
    rfl
  · intro hsig hb d1 d2 d3 c1 c2 c3
    obtain ⟨pm, h1⟩ := (checkU16_none_iff (d := d1)).mp c1
    obtain ⟨dp, h2⟩ := (checkU16_none_iff (d := d2)).mp c2
    obtain ⟨dpta, h3⟩ := (checkU16_none_iff (d := d3)).mp c3
    refine ⟨_, resolveAlarm_ok_some_iff.mpr ⟨v, pm, dp, dpta, hb, ?_, h1, h2, h3, rfl⟩, rfl⟩
    intro hc
    rw [hsig] at hc
    exact absurd hc (by simp)

/-- Witness for C5 at a concrete lookup: a Numeric base value `"a"` fails
the whole call with the InvalidFloat error naming the kind's key. -/
theorem c5_float_validation_witness :
    isF64 "a" = false ∧
    optional (lookupBase "a") [CpuLowerLimitVcpus] =
      Except.error (Error.ParseFloatWithMetadata "CPU_LOWER_LIMIT_VCPUS") := by
  refine ⟨by decide, ?_⟩
  exact (@c5_float_validation (lookupBase "a") [CpuLowerLimitVcpus]
    CpuLowerLimitVcpus "a").2.1 [] [] rfl rfl rfl (by decide) rfl rfl rfl
    (by simp)

/-- Claim C6: the error a failing resolution returns is exactly the first
parse error in resolution order — the three global tunable keys first, in
the order PERIOD_MINUTES, DATA_POINTS, DATA_POINTS_TO_ALARM, then the kinds
in the enumeration's order, each kind checking its base value before its
period, data-points and data-points-to-alarm keys (a kind whose base key is
absent checks nothing). -/
theorem c6_first_error_order {lookup : String → Option String} {kinds : List Alarm}
    {e : Error} :
    optional lookup kinds = Except.error e ↔ specFirstError lookup kinds = some e :=
  optional_error_iff

/-- Claim C7: a Numeric kind whose base key holds `"0"`, with no override
keys set, resolves successfully to value `"0"` with the default tunables
1/5/3 — zero is a valid float, neither dropped nor clamped nor rejected. -/
theorem c7_zero_base_value {k : Alarm} (_hnum : k.category = AlarmCategory.Numeric)
    (h1 : k.name ≠ "PERIOD_MINUTES") (h2 : k.name ≠ "DATA_POINTS")
    (h3 : k.name ≠ "DATA_POINTS_TO_ALARM") :
    optional (fun key => if key = k.name then some "0" else none) [k] =
      Except.ok [(k, { value := "0", period_minutes := 1, data_points := 5,
                       data_points_to_alarm := 3 })] :=
  optional_single h1 h2 h3 fun _ => by decide

/-- Witness for C7 at the concrete CPU lower-limit kind. -/
theorem c7_zero_base_value_witness :
    optional (lookupBase "0") [CpuLowerLimitVcpus] =
      Except.ok [(CpuLowerLimitVcpus,
        { value := "0", period_minutes := 1, data_points := 5,
          data_points_to_alarm := 3 })] :=
  c7_zero_base_value (k := CpuLowerLimitVcpus) rfl (by decide) (by decide) (by decide)

/-- Claim C10: float validation of a Numeric base value is syntax-only —
any string the float grammar accepts, including negatives, infinities, NaN
and large exponent forms, is accepted and stored verbatim in the returned
record. -/
theorem c10_float_syntax_only {k : Alarm} {v : String}
    (_hnum : k.category = AlarmCategory.Numeric)
    (h1 : k.name ≠ "PERIOD_MINUTES") (h2 : k.name ≠ "DATA_POINTS")
    (h3 : k.name ≠ "DATA_POINTS_TO_ALARM") (hv : isF64 v = true) :
    (isF64 "-1.5" = true ∧ isF64 "inf" = true ∧ isF64 "-inf" = true ∧
      isF64 "NaN" = true ∧ isF64 "1e300" = true) ∧
    optional (fun key => if key = k.name then some v else none) [k] =
      Except.ok [(k, { value := v, period_minutes := 1, data_points := 5,
                       data_points_to_alarm := 3 })] :=
  ⟨by decide, optional_single h1 h2 h3 fun _ => hv⟩

/-- Witness for C10 at the concrete value `"-inf"`: accepted and stored
verbatim. -/
theorem c10_float_syntax_only_witness :
    isF64 "-inf" = true ∧
    optional (lookupBase "-inf") [CpuLowerLimitVcpus] =
      Except.ok [(CpuLowerLimitVcpus,
        { value := "-inf", period_minutes := 1, data_points := 5,
          data_points_to_alarm := 3 })] := by
  have h := c10_float_syntax_only (k := CpuLowerLimitVcpus) (v := "-inf") rfl
    (by decide) (by decide) (by decide) (by decide)
  exact ⟨by decide, h.2⟩

end Alarms
